import Mathlib

/-!
Shallow embedding of the scene upload/release lifecycle of the cpcdoy
cuda-pathtracer repository, together with theorems settling the frozen
claims about it.

The repository carries two revisions of the scene module:

* `src/cuda_opengl/src/scene.cpp` — the older revision (namespace `V1`
  below): it still owns the material/texture upload, the cubemap upload
  and a `parse_scene` that throws on malformed directives.
* `src/cuda_opengl/src/scene/scene.cpp` — the newer revision (namespace
  `V2` below), the one reached from `main` via `scene/scene.h`: its
  `parse_scene` recovers from malformed directives and its pipeline no
  longer uploads textures or the cubemap.

Modelling conventions, used throughout:

* C/C++ `float` values are modelled as exact rationals (`ℚ`); the claims
  under study are structural (who is allocated, freed, written, skipped)
  and never depend on rounding.
* An angle `(d * M_PI) / 180.0` is stored as the rational coefficient of
  `π`, i.e. `d / 180`; with this convention the literal `90` degrees
  becomes the coefficient `90 / 180`.
* Device memory is an allocation ledger: `cudaMalloc` draws a fresh
  identifier and adds it to the set of live allocations, `cudaFree`
  removes its argument when it is live.  Device pointers are `Option ℕ`,
  with `none` standing both for a pointer the program never wrote
  (indeterminate in C++; such a pointer is never a live allocation, so
  `cudaFree` on it frees nothing, exactly as the real call frees nothing)
  and for the null pointer of a value-initialized buffer.
* `std::stringstream` extraction is modelled by a token list plus a fail
  bit: a line is pre-split into whitespace-separated tokens, each token
  records the text extracted by `>>` into a `std::string` and, when the
  token lexes as a number, the value extracted by `>>` into a `float`.
  A failed extraction sets the fail bit, writes `0` (C++11 value on
  failure) and makes every later `peek` report end-of-file, as with a
  real stream in the fail state.
-/

namespace PathTracer

/-- Three-component vector, standing in for `glm::vec3` / `float3`. -/
structure Vec3 where
  x : ℚ
  y : ℚ
  z : ℚ
deriving DecidableEq, Repr

/-- Cross product, standing in for `glm::cross` / `cross`. -/
def cross3 (a b : Vec3) : Vec3 :=
  ⟨a.y * b.z - a.z * b.y, a.z * b.x - a.x * b.z, a.x * b.y - a.y * b.x⟩

/-- Zero vector, used for the indeterminate fields of a stack-declared
`LightProp` before the parser writes them (never observable: a light is
kept only after every field was written). -/
def zero3 : Vec3 := ⟨0, 0, 0⟩

/-- One whitespace-separated token of a scene-file line.  `raw` is what
`>>` into a `std::string` extracts; `asFloat` is `some q` exactly when
`>>` into a `float` succeeds on the token, extracting `q`. -/
structure Tok where
  raw : String
  asFloat : Option ℚ
deriving DecidableEq, Repr

/-- Input stream state of one line: the remaining tokens and the fail
bit of the `std::stringstream`. -/
structure Istream where
  toks : List Tok
  failed : Bool
deriving DecidableEq, Repr

/-- Model of `iss.peek() == std::char_traits<char>::eof()`: true on a
failed stream or when no token remains. -/
def Istream.peekEof (s : Istream) : Bool :=
  s.failed || s.toks.isEmpty

/-- Model of `iss >> v` for a `float` target: on a failed or exhausted
stream, or a token that does not lex as a number, the target is set to
`0` and the fail bit raised; otherwise the value is extracted and the
token consumed. -/
def Istream.readF : Istream → ℚ × Istream
  | ⟨ts, true⟩ => (0, ⟨ts, true⟩)
  | ⟨[], false⟩ => (0, ⟨[], true⟩)
  | ⟨t :: ts, false⟩ =>
    match t.asFloat with
    | some q => (q, ⟨ts, false⟩)
    | none => (0, ⟨t :: ts, true⟩)

/-- Model of `iss >> s` for a `std::string` target: extracts the raw
token text; on a failed or exhausted stream the target keeps its old
value, passed in as `old`. -/
def Istream.readS (s : Istream) (old : String) : String × Istream :=
  match s with
  | ⟨ts, true⟩ => (old, ⟨ts, true⟩)
  | ⟨[], false⟩ => (old, ⟨[], true⟩)
  | ⟨t :: ts, false⟩ => (t.raw, ⟨ts, false⟩)

/-- Camera record.  Fields `position`, `dir`, `u`, `v`, `fov_x` are
declared in `scene_data.h`; `focus_dist`, `aperture` and `speed` are the
further fields written by the newer `parse_camera`, whose struct
declaration is not under `src/` (their existence is evidenced by the
writes in `scene/scene.cpp`).  `fov_x` stores the coefficient of `π`. -/
structure Camera where
  position : Vec3
  dir : Vec3
  u : Vec3
  v : Vec3
  fov_x : ℚ
  focus_dist : ℚ
  aperture : ℚ
  speed : ℚ
deriving DecidableEq, Repr

/-- Point-light descriptor, as in `scene_data.h`. -/
structure LightProp where
  color : Vec3
  vec : Vec3
  emission : ℚ
  radius : ℚ
deriving DecidableEq, Repr

/-- Result of `parse_double3`: the C++ function returns a `bool` and
writes through its out-parameter, possibly partially on failure. -/
structure PD3Res where
  ok : Bool
  v : Vec3
  s : Istream
deriving DecidableEq, Repr

/-- Model of `parse_double3(out, iss)` (identical in both revisions):
three `float` extractions with an eof `peek` before the first and after
the first and second; the third extraction is not checked. -/
def parse_double3 (init : Vec3) (s : Istream) : PD3Res :=
  if s.peekEof then ⟨false, init, s⟩
  else
    let (x1, s1) := s.readF
    if s1.peekEof then ⟨false, { init with x := x1 }, s1⟩
    else
      let (y1, s2) := s1.readF
      if s2.peekEof then ⟨false, { init with x := x1, y := y1 }, s2⟩
      else
        let (z1, s3) := s2.readF
        ⟨true, ⟨x1, y1, z1⟩, s3⟩

/-- Model of `parse_float(iss, default_val)` from `scene/scene.cpp`:
returns the default when the stream peeks eof, otherwise extracts
(`0` on a malformed token, as `v` is zero-initialized). -/
def parse_float (s : Istream) (default_val : ℚ) : ℚ × Istream :=
  if s.peekEof then (default_val, s)
  else s.readF

/-- Device-memory allocation ledger.  `next` is the next fresh
identifier, `live` the identifiers currently allocated.  `meshArrs` and
`texArrs` record the payload of the host-to-device copies that
`release_gpu` later reads back device-to-host: the mesh-descriptor
array (both revisions) and the texture-descriptor array (older
revision). -/
structure Heap where
  next : ℕ
  live : List ℕ
  meshArrs : List (ℕ × List (ℕ × Option ℕ))
  texArrs : List (ℕ × List (Option ℕ))
deriving DecidableEq, Repr

/-- Empty device heap. -/
def Heap.init : Heap := ⟨0, [], [], []⟩

/-- Model of `cudaMalloc`: returns a fresh identifier and marks it
live.  Every call is ledgered, whatever the byte count, matching an
allocation-tracking test double of the primitive. -/
def Heap.alloc (h : Heap) : ℕ × Heap :=
  (h.next, { h with next := h.next + 1, live := h.next :: h.live })

/-- Model of `cudaFree p`: a live identifier is removed; the null
pointer or a pointer that was never returned by `cudaMalloc` frees
nothing. -/
def Heap.free (h : Heap) : Option ℕ → Heap
  | none => h
  | some p => { h with live := h.live.erase p }

/-- Record, on the ledger, the host-to-device copy of the mesh
descriptor array (each entry: face count and device face pointer). -/
def Heap.storeMeshArr (h : Heap) (id : ℕ) (ms : List (ℕ × Option ℕ)) : Heap :=
  { h with meshArrs := (id, ms) :: h.meshArrs }

/-- Record, on the ledger, the host-to-device copy of the texture
descriptor array (each entry: its device pixel pointer). -/
def Heap.storeTexArr (h : Heap) (id : ℕ) (ts : List (Option ℕ)) : Heap :=
  { h with texArrs := (id, ts) :: h.texArrs }

/-- Device-to-host read-back of a mesh descriptor array, as performed
by `release_gpu`.  Reading through a pointer that never received a copy
yields indeterminate data in C++; the model returns the empty list,
which no claim exercises. -/
def Heap.readMeshArr (h : Heap) : Option ℕ → List (ℕ × Option ℕ)
  | none => []
  | some p => ((h.meshArrs.lookup p).getD [])

/-- Device-to-host read-back of a texture descriptor array. -/
def Heap.readTexArr (h : Heap) : Option ℕ → List (Option ℕ)
  | none => []
  | some p => ((h.texArrs.lookup p).getD [])

/-- Observable events of one lifecycle run: the scene-file parse, the
write through the caller's camera pointer, the external model load,
each `cudaMalloc`, each `cudaFree` call (tagged with the struct field
it frees through), each diagnostic printed to `std::cerr`, and each
executed iteration of the face-flattening loop of `upload_meshes`
(`faceWrite k` is the write of host face slot `faces[k]`, which is out
of bounds when `k` is not below the face count). -/
inductive Ev where
  | parseEv : Ev
  | camWrite : Ev
  | loadModel : Ev
  | mallocEv : ℕ → Ev
  | freeEv : String → Option ℕ → Ev
  | diag : Ev
  | faceWrite : ℕ → Ev
deriving DecidableEq, Repr

/-- Buffer descriptor `Buffer<T>`: element count and device pointer. -/
structure Buf where
  size : ℕ
  data : Option ℕ
deriving DecidableEq, Repr

/-- Model of `parse_camera` from `scene/scene.cpp`.  `norm3` abstracts
the irrational-valued `normalize` primitive (external vector math); the
theorems below hold for every choice of it.  Partial writes through the
`cam` reference on a failing parse are preserved, as in the source. -/
def parse_camera (norm3 : Vec3 → Vec3) (cam : Camera) (s : Istream) :
    Bool × Camera × Istream :=
  let r1 := parse_double3 cam.position s
  let cam1 := { cam with position := r1.v }
  if !r1.ok then (false, cam1, r1.s)
  else
    let r2 := parse_double3 cam1.dir r1.s
    let cam2 := { cam1 with dir := r2.v }
    if !r2.ok then (false, cam2, r2.s)
    else
      let cam3 := { cam2 with dir := norm3 cam2.dir }
      if r2.s.peekEof then (false, cam3, r2.s)
      else
        let rf := r2.s.readF
        let cam4 := { cam3 with fov_x := rf.1 / 180 }
        let pf1 := parse_float rf.2 2
        let pf2 := parse_float pf1.2 (1 / 8)
        (true,
         { cam4 with focus_dist := pf1.1, aperture := pf2.1, speed := 7 / 5 },
         pf2.2)

/-- One line of the scene file.  `skip` is the source predicate
`line.empty() || line[0] == '#'` over the raw text; `toks` is the
tokenization consumed by the extractions. -/
structure Line where
  skip : Bool
  toks : List Tok
deriving DecidableEq, Repr

/-- Accumulated outputs of the line loop of `parse_scene`: the camera
reference, the collected lights, the two file-name references and the
number of diagnostics written to `std::cerr`. -/
structure ParseState where
  cam : Camera
  lights : List LightProp
  objfile : String
  cubemap : String
  diags : ℕ
deriving DecidableEq, Repr

/-- Model of the `p_light` handler body of `scene/scene.cpp`: `none`
when one of the four field groups fails to parse (the handler prints
and `continue`s), `some` with the parsed light otherwise.  Field order
in the source: position vector, color, emission, radius. -/
def parse_p_light (s : Istream) : Option LightProp :=
  let r1 := parse_double3 zero3 s
  if !r1.ok then none
  else
    let r2 := parse_double3 zero3 r1.s
    if !r2.ok then none
    else if r2.s.peekEof then none
    else
      let em := r2.s.readF
      if em.2.peekEof then none
      else
        let rad := em.2.readF
        some ⟨r2.v, r1.v, em.1, rad.1⟩

/-- Dispatch of one scene-file line in the newer `parse_scene`
(`scene/scene.cpp`): blank and `#` lines are skipped, then the keyword
is extracted and matched against `p_light`, `scene`, `camera`,
`cubemap`; unknown keywords are ignored. -/
def processLine (norm3 : Vec3 → Vec3) (st : ParseState) (ln : Line) :
    ParseState :=
  if ln.skip then st
  else
    let token := (Istream.readS ⟨ln.toks, false⟩ "").1
    let s := (Istream.readS ⟨ln.toks, false⟩ "").2
    if token = "p_light" then
      match parse_p_light s with
      | none => { st with diags := st.diags + 1 }
      | some l => { st with lights := st.lights ++ [l] }
    else if token = "scene" then
      if s.peekEof then { st with diags := st.diags + 1 }
      else { st with objfile := (s.readS st.objfile).1 }
    else if token = "camera" then
      let pc := parse_camera norm3 st.cam s
      if pc.1 then { st with cam := pc.2.1 }
      else { st with cam := pc.2.1, diags := st.diags + 1 }
    else if token = "cubemap" then
      if s.peekEof then st
      else { st with cubemap := (s.readS st.cubemap).1 }
    else st

/-- Default camera installed by `parse_scene` before the line loop,
used when no `camera` line is present: canonical right and down basis
vectors, a 90-degree horizontal field of view converted to radians
(coefficient `90 / 180` of `π`), and `dir = cross(u, v)`.  The position
field is not written. -/
def defaultCamera (cam0 : Camera) : Camera :=
  let c1 := { cam0 with u := Vec3.mk 1 0 0 }
  let c2 := { c1 with v := Vec3.mk 0 (-1) 0 }
  let c3 := { c2 with fov_x := 90 / 180 }
  { c3 with dir := cross3 c3.u c3.v }

/-- One `tinyobj::index_t` of a shape's index list. -/
structure Idx where
  vertex_index : ℤ
  normal_index : ℤ
  texcoord_index : ℤ
deriving DecidableEq, Repr

/-- One `tinyobj::shape_t`: its mesh's index list and per-face material
ids.  The shared attribute pools only feed the `Face` payloads (pure
float arithmetic), which no claim observes; the upload structure is
driven entirely by `indices.length`. -/
structure Shape where
  indices : List Idx
  material_ids : List ℤ
deriving DecidableEq, Repr

/-- Counter values taken by the flattening loop
`for (size_t i = 0; i < n; i += 3)` of `upload_meshes`: the multiples
of `3` below `n`. -/
def loopIdxs (n : ℕ) : List ℕ :=
  (List.range n).filter (fun i => i % 3 = 0)

/-- Face slots written by the flattening loop: each iteration `i`
writes `faces[i / 3]` (and reads `mesh.indices[i]`, `[i+1]`, `[i+2]`). -/
def faceWriteSlots (n : ℕ) : List ℕ :=
  (loopIdxs n).map (fun i => i / 3)

/-- Face count of a shape as computed by `upload_meshes`:
`nb_faces = nb_indices / 3`, and the `std::vector<Face> faces` the
loop fills is allocated with exactly this many slots. -/
def shapeFaceCount (sh : Shape) : ℕ :=
  sh.indices.length / 3

/-- Per-shape body of `upload_meshes` (identical in both revisions),
reduced to its observable effects: the flattening loop first executes
one iteration per counter value in `loopIdxs` — each writing host face
slot `faces[i / 3]`, recorded as a `faceWrite` event; since the loop
bound is `i < nb_indices` rather than a multiple of 3, an index count
with remainder 1 or 2 makes the final iteration write slot `nb_faces`,
one past the end of the `nb_faces`-sized `faces` vector, and read
`mesh.indices` past its end (in particular a 1- or 2-index shape has an
empty `faces` vector yet still executes iteration `i = 0`).  Then the
mesh entry of `gpu_meshes[i]` is produced (face count and device face
pointer; value-initialized to `(0, null)` by
`std::vector<Mesh> gpu_meshes(nb_meshes)`) and the face buffer is
allocated and copied, skipped via `continue` when
`faces.size() == 0`. -/
def uploadMeshShape (sh : Shape) (h : Heap) :
    (ℕ × Option ℕ) × Heap × List Ev :=
  let nb_faces := shapeFaceCount sh
  let writes := (faceWriteSlots sh.indices.length).map Ev.faceWrite
  if nb_faces = 0 then ((nb_faces, none), h, writes)
  else
    ((nb_faces, some h.alloc.1), h.alloc.2, writes ++ [Ev.mallocEv h.alloc.1])

/-- Sequential processing of every shape by `upload_meshes`,
accumulating the host-side `gpu_meshes` vector. -/
def uploadMeshList : List Shape → Heap →
    List (ℕ × Option ℕ) × Heap × List Ev
  | [], h => ([], h, [])
  | sh :: rest, h =>
    let r1 := uploadMeshShape sh h
    let r2 := uploadMeshList rest r1.2.1
    (r1.1 :: r2.1, r2.2.1, r1.2.2 ++ r2.2.2)

/-- Model of `upload_meshes`: processes every shape, then allocates the
device mesh-descriptor array (one `cudaMalloc` regardless of the shape
count) and copies `gpu_meshes` into it; `out_meshes.size` is the shape
count. -/
def uploadMeshes (shapes : List Shape) (h : Heap) : Buf × Heap × List Ev :=
  let r := uploadMeshList shapes h
  let h1 := r.2.1
  let cid := h1.alloc.1
  let h2 := (h1.alloc.2).storeMeshArr cid r.1
  (⟨shapes.length, some cid⟩, h2, r.2.2 ++ [Ev.mallocEv cid])

namespace V2

/-- Host mirror of `SceneData` as used by the newer pipeline: the three
buffer descriptors it writes and frees.  A fresh `new scene::SceneData`
leaves every member indeterminate; the model starts pointers at `none`
and sizes at `0` (each size field is overwritten before any read on the
modelled paths, the pointer fields are exactly the indeterminate values
that `release_gpu` passes to `cudaFree` when nothing was allocated). -/
structure SceneDataH where
  meshes : Buf
  materials : Buf
  lights : Buf
deriving DecidableEq, Repr

/-- Indeterminate members of a fresh `new scene::SceneData`. -/
def freshSceneData : SceneDataH := ⟨⟨0, none⟩, ⟨0, none⟩, ⟨0, none⟩⟩

/-- State of a `scene::Scene` object (newer revision): lifecycle flags,
load-error string, the `_init_camera` member, the `_cubemap_path`
member, the host mirror pointer and the device struct pointer. -/
structure SceneSt where
  uploaded : Bool
  ready : Bool
  load_error : String
  init_camera : Camera
  cubemap_path : String
  scene_data : Option SceneDataH
  d_scene_data : Option ℕ
deriving DecidableEq, Repr

/-- Freshly constructed `Scene(filepath)`: flags false, both struct
pointers null.  `_init_camera` is an indeterminate member, supplied as
an argument. -/
def Scene.mkScene (cam0 : Camera) : SceneSt :=
  ⟨false, false, "", cam0, "", none, none⟩

/-- Environment of one `upload()` call: whether the scene file opens,
its tokenized lines, and the outcome of the external
`tinyobj::LoadObj` collaborator (success flag, error string, shapes,
and the number of materials the material loader yields). -/
structure Inputs where
  fileOk : Bool
  lines : List Line
  loadOk : Bool
  loadErr : String
  shapes : List Shape
  nbMat : ℕ
deriving DecidableEq, Repr

/-- Result of the newer `parse_scene`: the reference outputs, the
lights buffer written into `out_scene`, the heap, and the events
(diagnostics, then the lights allocation if any). -/
structure ParseRes where
  st : ParseState
  lightsBuf : Buf
  heap : Heap
  evs : List Ev
deriving DecidableEq, Repr

/-- Line loop of the newer `parse_scene`: defaults the camera, then
folds the dispatcher over the file's lines. -/
def parseSceneLines (norm3 : Vec3 → Vec3) (cam0 : Camera)
    (lines : List Line) (objfile0 cubemap0 : String) : ParseState :=
  lines.foldl (processLine norm3) ⟨defaultCamera cam0, [], objfile0, cubemap0, 0⟩

/-- Model of the newer `parse_scene`: on a file that fails to open it
prints one diagnostic and returns with every reference untouched;
otherwise it runs the line loop, sets `out_scene.lights.size = 0`, and
when at least one light was collected allocates and fills the device
lights buffer. -/
def parse_scene (norm3 : Vec3 → Vec3) (fileOk : Bool) (lines : List Line)
    (cam0 : Camera) (objfile0 cubemap0 : String) (lights0 : Buf) (h : Heap) :
    ParseRes :=
  if !fileOk then ⟨⟨cam0, [], objfile0, cubemap0, 1⟩, lights0, h, [Ev.diag]⟩
  else
    let st := parseSceneLines norm3 cam0 lines objfile0 cubemap0
    let diagEvs := List.replicate st.diags Ev.diag
    if st.lights.length = 0 then ⟨st, ⟨0, none⟩, h, diagEvs⟩
    else
      ⟨st, ⟨st.lights.length, some h.alloc.1⟩, h.alloc.2,
       diagEvs ++ [Ev.mallocEv h.alloc.1]⟩

/-- Model of the newer `upload_materials`: the singleton material
loader yields `cpu_mat`; a non-empty list gets one allocation and copy,
and `materials.size` is set to the list's length either way. -/
def upload_materials (nbMat : ℕ) (h : Heap) : Buf × Heap × List Ev :=
  if nbMat = 0 then (⟨0, none⟩, h, [])
  else (⟨nbMat, some h.alloc.1⟩, h.alloc.2, [Ev.mallocEv h.alloc.1])

/-- Result of one `upload()` call: the scene state, the heap, the event
trace, and the camera value written through the caller's pointer
(`none` when nothing was written). -/
structure UpRes where
  st : SceneSt
  heap : Heap
  evs : List Ev
  camOut : Option Camera
deriving DecidableEq, Repr

/-- Model of `Scene::upload(scene::Camera* camera)` from
`scene/scene.cpp`.  `camPtr` is whether the supplied pointer is
non-null.  The guard returns at once when `_uploaded` is set; otherwise
a fresh host `SceneData` is made, `parse_scene` runs, the parsed camera
is copied through the pointer when non-null, the model load is
attempted (`_ready` and `_load_error` take its outcome), a failed load
prints a diagnostic and deletes the host mirror, and a successful load
runs `upload_gpu` (materials, meshes, then the device copy of the
struct itself) and sets `_uploaded`. -/
def Scene.upload (norm3 : Vec3 → Vec3) (inp : Inputs) (camPtr : Bool)
    (s : SceneSt) (h : Heap) : UpRes :=
  if s.uploaded then ⟨s, h, [], none⟩
  else
    let pr := parse_scene norm3 inp.fileOk inp.lines s.init_camera ""
      s.cubemap_path freshSceneData.lights h
    let sd1 : SceneDataH := { freshSceneData with lights := pr.lightsBuf }
    let s1 := { s with init_camera := pr.st.cam, cubemap_path := pr.st.cubemap }
    let camOut := if camPtr then some pr.st.cam else none
    let camEvs := if camPtr then [Ev.camWrite] else []
    let preEvs := Ev.parseEv :: pr.evs ++ camEvs ++ [Ev.loadModel]
    if !inp.loadOk then
      ⟨{ s1 with
          ready := false,
          load_error := inp.loadErr,
          scene_data := none,
          d_scene_data := none },
       pr.heap, preEvs ++ [Ev.diag], camOut⟩
    else
      let rm := upload_materials inp.nbMat pr.heap
      let rs := uploadMeshes inp.shapes rm.2.1
      let dsid := rs.2.1.alloc.1
      ⟨{ s1 with
          uploaded := true,
          ready := true,
          load_error := inp.loadErr,
          scene_data := some { sd1 with materials := rm.1, meshes := rs.1 },
          d_scene_data := some dsid },
       rs.2.1.alloc.2,
       preEvs ++ rm.2.2 ++ rs.2.2 ++ [Ev.mallocEv dsid], camOut⟩

/-- Model of the newer `Scene::release_gpu`: reads the mesh descriptor
array back from the device, frees every face buffer, then the meshes,
materials and lights containers, then the device struct, and deletes
the host mirror. -/
def Scene.release_gpu (s : SceneSt) (h : Heap) : SceneSt × Heap × List Ev :=
  let sd := s.scene_data.getD freshSceneData
  let meshes := (h.readMeshArr sd.meshes.data).take sd.meshes.size
  let h1 := meshes.foldl (fun hh m => hh.free m.2) h
  let evs1 := meshes.map (fun m => Ev.freeEv "mesh_faces" m.2)
  let h2 := h1.free sd.meshes.data
  let h3 := h2.free sd.materials.data
  let h4 := h3.free sd.lights.data
  let h5 := h4.free s.d_scene_data
  ({ s with scene_data := none, uploaded := false },
   h5,
   evs1 ++ [Ev.freeEv "meshes" sd.meshes.data,
     Ev.freeEv "materials" sd.materials.data,
     Ev.freeEv "lights" sd.lights.data,
     Ev.freeEv "scene_struct" s.d_scene_data])

/-- Model of `Scene::release`: a no-op unless both `_uploaded` and
`_ready` hold, otherwise `release_gpu` runs. -/
def Scene.release (s : SceneSt) (h : Heap) : SceneSt × Heap × List Ev :=
  if !s.uploaded || !s.ready then (s, h, [])
  else Scene.release_gpu s h

end V2

/-- Hex-digit alphabet of `isHexa`, exactly the character set passed to
`find_first_not_of`. -/
def hexChars : List Char := "0123456789abcdefABCDEF".toList

/-- Model of `isHexa` from `scene.cpp`: the string starts with `0x`
(`compare(0, 2, "0x") == 0`), has more than two characters, and every
character from index 2 on is a hexadecimal digit. -/
def isHexa (s : String) : Bool :=
  match s.toList with
  | '0' :: 'x' :: rest => !rest.isEmpty && rest.all (fun c => hexChars.contains c)
  | _ => false

/-- Value of one hexadecimal digit character. -/
def hexDigitVal (c : Char) : ℕ :=
  if c.toNat ≥ 97 then c.toNat - 87
  else if c.toNat ≥ 65 then c.toNat - 55
  else c.toNat - 48

/-- Model of `strtol(s, NULL, 16)` for the strings it is applied to
(they satisfy `isHexa`, so they are `0x` followed by hex digits, which
`strtol` consumes entirely). -/
def strtol16 (s : String) : ℕ :=
  match s.toList with
  | '0' :: 'x' :: rest => rest.foldl (fun a c => 16 * a + hexDigitVal c) 0
  | _ => 0

namespace V1

/-- Dimensions returned by `stbi_loadf` on success. -/
structure ImgMeta where
  w : ℕ
  h : ℕ
  nb_chan : ℕ
deriving DecidableEq, Repr

/-- Host image handed to the cubemap device copy: either the
constant-color image of `createUnitTexture` (one texel per face,
`DEFAULT_SIZE = 1`) or the six faces sliced from a loaded cube cross. -/
inductive ImgSrc where
  | constColor : ℕ → ImgSrc
  | crossSlice : ImgSrc
deriving DecidableEq, Repr

/-- Observable outcome of `upload_cubemap`: the square face extent of
the device cube array (`make_cudaExtent(size, size, NB_FACES)`), the
face count, the channel count of the format descriptor
(`cudaCreateChannelDesc(32, 32, 32, 32, float)`), the host image that
was copied, and how many texels per face that host image holds. -/
structure CubemapRes where
  extent : ℕ
  faces : ℕ
  channels : ℕ
  img : ImgSrc
  imgTexelsPerFace : ℕ
deriving DecidableEq, Repr

/-- The default cubemap color `DEFAULT_COLOR = 0x05070A`. -/
def DEFAULT_COLOR : ℕ := 0x05070A

/-- Model of `upload_cubemap` from `scene.cpp`.  `load` is the result
of `stbi_loadf` on `path` (`none` for a decode failure); `wUninit` is
the indeterminate value of the stack variable `w` that `size = w / 4`
reads when the decode failed, since `stbi_loadf` then leaves `w`
unwritten.  An empty or hexadecimal `path` synthesizes a constant-color
image with `size` still `1`; otherwise `size = w / 4` and the image is
validated (decode success, `size == h / 3`, `size` a power of two --
`size & (size - 1)` zero); on any validation failure a diagnostic is
printed and the constant-color default image is synthesized, with
`size` left as computed.  One `cudaMalloc3DArray` of extent
`size × size × 6` follows unconditionally. -/
def upload_cubemap (path : String) (load : Option ImgMeta) (wUninit : ℕ)
    (h : Heap) : CubemapRes × Option ℕ × Heap × List Ev :=
  if path.isEmpty || isHexa path then
    let color := if path.isEmpty then DEFAULT_COLOR else strtol16 path
    let (id, h1) := h.alloc
    (⟨1, 6, 4, ImgSrc.constColor color, 1⟩, some id, h1, [Ev.mallocEv id])
  else
    let w := match load with
      | some m => m.w
      | none => wUninit
    let size := w / 4
    let hasError :=
      match load with
      | none => true
      | some m =>
        if size ≠ m.h / 3 then true
        else if size &&& (size - 1) ≠ 0 then true
        else false
    let img := if hasError then ImgSrc.constColor DEFAULT_COLOR
      else ImgSrc.crossSlice
    let tpf := if hasError then 1 else size * size
    let diags : List Ev := if hasError then [Ev.diag] else []
    let (id, h1) := h.alloc
    (⟨size, 6, 4, img, tpf⟩, some id, h1, diags ++ [Ev.mallocEv id])

/-- Per-texture pixel-buffer allocations of the older
`upload_materials`: one `cudaMalloc` and copy per cpu texture, the
device pointers collected into `gpu_textures`. -/
def allocTexPixels : ℕ → Heap → List (Option ℕ) × Heap × List Ev
  | 0, h => ([], h, [])
  | n + 1, h =>
    let (id, h1) := h.alloc
    let (rest, h2, evs) := allocTexPixels n h1
    (some id :: rest, h2, Ev.mallocEv id :: evs)

/-- Model of the older `upload_materials`: uploads every texture pixel
buffer, then (when any texture exists) the texture descriptor array,
then (when any material exists) the material array.  As in the source,
both `materials.size` and `textures.size` are set to `cpu_mat.size()`.
Returns the textures buffer and the materials buffer. -/
def upload_materials (nbTex nbMat : ℕ) (h : Heap) :
    (Buf × Buf) × Heap × List Ev :=
  let (texPtrs, h1, e1) := allocTexPixels nbTex h
  let (texData, h2, e2) :=
    if nbTex = 0 then ((none : Option ℕ), h1, ([] : List Ev))
    else
      let (cid, hh) := h1.alloc
      (some cid, hh.storeTexArr cid texPtrs, [Ev.mallocEv cid])
  let (matData, h3, e3) :=
    if nbMat = 0 then ((none : Option ℕ), h2, ([] : List Ev))
    else
      let (mid, hh) := h2.alloc
      (some mid, hh, [Ev.mallocEv mid])
  ((⟨nbMat, texData⟩, ⟨nbMat, matData⟩), h3, e1 ++ e2 ++ e3)

/-- Lights upload at the tail of the older `parse_scene`: nothing at
all happens for an empty light list (the buffer keeps its
indeterminate members, modelled as the fresh-struct values), otherwise
one allocation and copy. -/
def uploadLights (nLights : ℕ) (lights0 : Buf) (h : Heap) :
    Buf × Heap × List Ev :=
  if nLights = 0 then (lights0, h, [])
  else
    let (id, h1) := h.alloc
    (⟨nLights, some id⟩, h1, [Ev.mallocEv id])

/-- Host mirror of the older `SceneData`: the buffers the pipeline
writes and frees plus the cubemap device array handle. -/
structure SceneDataH where
  meshes : Buf
  materials : Buf
  lights : Buf
  textures : Buf
  cubemap : Option ℕ
deriving DecidableEq, Repr

/-- Indeterminate members of a fresh `new SceneData` (older
revision). -/
def freshSceneData : SceneDataH := ⟨⟨0, none⟩, ⟨0, none⟩, ⟨0, none⟩, ⟨0, none⟩, none⟩

/-- State of a `scene::Scene` object (older revision): lifecycle flags,
error string, heap-allocated `_camera` and `_scene_data`, and the
device struct pointer. -/
structure SceneSt where
  uploaded : Bool
  ready : Bool
  load_error : String
  camera : Option Camera
  scene_data : Option SceneDataH
  d_scene_data : Option ℕ
deriving DecidableEq, Repr

/-- Freshly constructed older-revision `Scene(filepath)`. -/
def Scene.mkScene : SceneSt := ⟨false, false, "", none, none, none⟩

/-- Environment of one older-revision `upload()` call, for a scene file
the throwing parser accepts: the parsed light count, the cubemap path
and its decode outcome, the indeterminate stack value read on decode
failure, the model-load outcome, the shapes, and the texture and
material counts the material loader yields. -/
structure Inputs where
  nLights : ℕ
  camParsed : Camera
  cubemapPath : String
  cubemapLoad : Option ImgMeta
  wUninit : ℕ
  loadOk : Bool
  shapes : List Shape
  nbTex : ℕ
  nbMat : ℕ
deriving DecidableEq, Repr

/-- Model of the older `Scene::upload_gpu` preceded by the lights
upload from `parse_scene`: materials/textures, meshes, cubemap, then
the `cudaMalloc` and copy of the `SceneData` struct itself. -/
def Scene.upload_gpu (inp : Inputs) (lightsBuf : Buf) (h : Heap) :
    SceneDataH × Option ℕ × Heap × List Ev :=
  let ((texBuf, matBuf), h1, e1) := upload_materials inp.nbTex inp.nbMat h
  let (meshBuf, h2, e2) := uploadMeshes inp.shapes h1
  let (_cres, cmArr, h3, e3) :=
    upload_cubemap inp.cubemapPath inp.cubemapLoad inp.wUninit h2
  let (dsid, h4) := h3.alloc
  (⟨meshBuf, matBuf, lightsBuf, texBuf, cmArr⟩, some dsid, h4,
   e1 ++ e2 ++ e3 ++ [Ev.mallocEv dsid])

/-- Model of the older `Scene::upload(bool)` for a scene file the
parser accepts: the `_uploaded` guard, fresh host `SceneData` and
`Camera`, the lights upload from `parse_scene`, the model load (whose
failure deletes the host allocations and returns with `_ready` false),
then `upload_gpu` and `_uploaded = true`. -/
def Scene.upload (inp : Inputs) (s : SceneSt) (h : Heap) :
    SceneSt × Heap × List Ev :=
  if s.uploaded then (s, h, [])
  else
    let (lightsBuf, h1, e1) := uploadLights inp.nLights freshSceneData.lights h
    if !inp.loadOk then
      ({ s with
          ready := false,
          camera := none,
          scene_data := none },
       h1, Ev.parseEv :: e1 ++ [Ev.loadModel])
    else
      let (sd, dsd, h2, e2) := Scene.upload_gpu inp lightsBuf h1
      ({ s with
          uploaded := true,
          ready := true,
          camera := some inp.camParsed,
          scene_data := some sd,
          d_scene_data := dsd },
       h2, Ev.parseEv :: e1 ++ [Ev.loadModel] ++ e2)

/-- Model of the older `Scene::release_gpu`: reads the texture
descriptor array back and frees each pixel buffer, reads the mesh
descriptor array back and frees each face buffer, frees the materials
and lights containers and the device struct, and deletes the host
`_camera` and `_scene_data`.  Note the source frees neither the
texture container, nor the mesh container, nor the cubemap array. -/
def Scene.release_gpu (s : SceneSt) (h : Heap) : SceneSt × Heap × List Ev :=
  let sd := s.scene_data.getD freshSceneData
  let texPtrs := (h.readTexArr sd.textures.data).take sd.textures.size
  let h1 := texPtrs.foldl (fun hh p => hh.free p) h
  let evs1 := texPtrs.map (fun p => Ev.freeEv "texture_pixels" p)
  let meshes := (h1.readMeshArr sd.meshes.data).take sd.meshes.size
  let h2 := meshes.foldl (fun hh m => hh.free m.2) h1
  let evs2 := meshes.map (fun m => Ev.freeEv "mesh_faces" m.2)
  let h3 := h2.free sd.materials.data
  let h4 := h3.free sd.lights.data
  let h5 := h4.free s.d_scene_data
  ({ s with camera := none, scene_data := none, uploaded := false },
   h5,
   evs1 ++ evs2 ++ [Ev.freeEv "materials" sd.materials.data,
     Ev.freeEv "lights" sd.lights.data,
     Ev.freeEv "scene_struct" s.d_scene_data])

/-- Model of the older `Scene::release`: a no-op unless both
`_uploaded` and `_ready` hold, otherwise `release_gpu` runs. -/
def Scene.release (s : SceneSt) (h : Heap) : SceneSt × Heap × List Ev :=
  if !s.uploaded || !s.ready then (s, h, [])
  else Scene.release_gpu s h

end V1

/-! Helper notions for stating the claims: the keyword of a line (the
first `>>` extraction of the dispatch loop), the remaining stream, and
the classification of lines by keyword. -/

/-- Keyword extracted from a line by `iss >> token`. -/
def lineKeyword (ln : Line) : String :=
  (Istream.readS ⟨ln.toks, false⟩ "").1

/-- The line is a processed `camera` directive. -/
def IsCameraLine (ln : Line) : Prop :=
  ln.skip = false ∧ lineKeyword ln = "camera"

/-- The line is a processed `p_light` directive. -/
def IsPlightLine (ln : Line) : Prop :=
  ln.skip = false ∧ lineKeyword ln = "p_light"

instance (ln : Line) : Decidable (IsCameraLine ln) := by
  unfold IsCameraLine; infer_instance

instance (ln : Line) : Decidable (IsPlightLine ln) := by
  unfold IsPlightLine; infer_instance

/-- An all-zero camera value, standing for the indeterminate
`_init_camera` member of a freshly constructed `Scene`. -/
def zeroCamera : Camera := ⟨zero3, zero3, zero3, zero3, 0, 0, 0, 0⟩

/-- Every dispatch branch other than `camera` leaves the camera
reference untouched. -/
lemma processLine_cam (norm3 : Vec3 → Vec3) (st : ParseState) (ln : Line)
    (h : ¬ IsCameraLine ln) : (processLine norm3 st ln).cam = st.cam := by
  by_cases hs : ln.skip = true
  · simp [processLine, hs]
  · have hsf : ln.skip = false := by simpa using hs
    have hk : ¬ ((Istream.readS ⟨ln.toks, false⟩ "").1 = "camera") :=
      fun hkk => h ⟨hsf, hkk⟩
    simp only [processLine, hsf, Bool.false_eq_true, if_false]
    split_ifs <;> first
      | rfl
      | exact absurd (by assumption) hk
      | (cases hpl : parse_p_light (Istream.readS ⟨ln.toks, false⟩ "").2 <;>
          rfl)

/-- Every dispatch branch other than `p_light` leaves the collected
light list untouched. -/
lemma processLine_lights (norm3 : Vec3 → Vec3) (st : ParseState) (ln : Line)
    (h : ¬ IsPlightLine ln) : (processLine norm3 st ln).lights = st.lights := by
  by_cases hs : ln.skip = true
  · simp [processLine, hs]
  · have hsf : ln.skip = false := by simpa using hs
    have hk : ¬ ((Istream.readS ⟨ln.toks, false⟩ "").1 = "p_light") :=
      fun hkk => h ⟨hsf, hkk⟩
    simp only [processLine, hsf, Bool.false_eq_true, if_false]
    split_ifs <;> first
      | exact absurd (by assumption) hk
      | (cases hpl : parse_p_light (Istream.readS ⟨ln.toks, false⟩ "").2 <;>
          rfl)

/-- A file without `camera` directives leaves the camera of the fold
state untouched. -/
lemma foldl_cam (norm3 : Vec3 → Vec3) (lines : List Line)
    (st : ParseState) (h : ∀ ln ∈ lines, ¬ IsCameraLine ln) :
    (lines.foldl (processLine norm3) st).cam = st.cam := by
  induction lines generalizing st with
  | nil => rfl
  | cons ln ls ih =>
    rw [List.foldl_cons, ih _ fun l hl => h l (List.mem_cons_of_mem _ hl),
      processLine_cam _ _ _ (h ln (List.mem_cons_self _ _))]

/-- A file without `p_light` directives leaves the light list of the
fold state untouched. -/
lemma foldl_lights (norm3 : Vec3 → Vec3) (lines : List Line)
    (st : ParseState) (h : ∀ ln ∈ lines, ¬ IsPlightLine ln) :
    (lines.foldl (processLine norm3) st).lights = st.lights := by
  induction lines generalizing st with
  | nil => rfl
  | cons ln ls ih =>
    rw [List.foldl_cons, ih _ fun l hl => h l (List.mem_cons_of_mem _ hl),
      processLine_lights _ _ _ (h ln (List.mem_cons_self _ _))]

/-- C5 (amended).  For every scene file without a `camera` line, the
camera produced by the line loop of `parse_scene` has right basis
`u = (1,0,0)`, down basis `v = (0,-1,0)`, a horizontal field of view of
90 degrees converted to radians (`π`-coefficient `90 / 180`), and a
forward direction equal to `cross(u, v)` — the cross product
right × down, concretely `(0,0,-1)` — while the position field keeps
its incoming (unwritten) value.  The original claim stated
`dir = cross(v, u)` (down × right); the code computes `cross(u, v)`. -/
theorem defaultCamera_of_no_camera_line (norm3 : Vec3 → Vec3) (cam0 : Camera)
    (lines : List Line) (o c : String)
    (h : ∀ ln ∈ lines, ¬ IsCameraLine ln) :
    (V2.parseSceneLines norm3 cam0 lines o c).cam.u = ⟨1, 0, 0⟩ ∧
    (V2.parseSceneLines norm3 cam0 lines o c).cam.v = ⟨0, -1, 0⟩ ∧
    (V2.parseSceneLines norm3 cam0 lines o c).cam.fov_x = 90 / 180 ∧
    (V2.parseSceneLines norm3 cam0 lines o c).cam.dir =
      cross3 (V2.parseSceneLines norm3 cam0 lines o c).cam.u
        (V2.parseSceneLines norm3 cam0 lines o c).cam.v ∧
    (V2.parseSceneLines norm3 cam0 lines o c).cam.dir = ⟨0, 0, -1⟩ ∧
    (V2.parseSceneLines norm3 cam0 lines o c).cam.position = cam0.position := by
  have hc : (V2.parseSceneLines norm3 cam0 lines o c).cam = defaultCamera cam0 :=
    foldl_cam norm3 lines _ h
  rw [hc]
  refine ⟨rfl, rfl, rfl, ?_, ?_, rfl⟩ <;> simp [defaultCamera, cross3]

/-- C5 (counterexample).  At the concrete empty scene file, the default
camera's forward direction is not `cross(v, u)` (down × right), which
is what the claim asserts: the code computes `cross(u, v) = (0,0,-1)`
while `cross(v, u) = (0,0,1)`. -/
theorem defaultCamera_dir_ne_down_cross_right :
    (V2.parseSceneLines (fun w => w) zeroCamera [] "" "").cam.dir ≠
      cross3 (V2.parseSceneLines (fun w => w) zeroCamera [] "" "").cam.v
        (V2.parseSceneLines (fun w => w) zeroCamera [] "" "").cam.u := by
  norm_num [V2.parseSceneLines, defaultCamera, cross3, zeroCamera, zero3]

/-- Closed instantiation of `defaultCamera_of_no_camera_line` at the
empty scene file. -/
theorem defaultCamera_of_no_camera_line_witness :
    (∀ ln ∈ ([] : List Line), ¬ IsCameraLine ln) ∧
    ((V2.parseSceneLines (fun w => w) zeroCamera [] "" "").cam.u = ⟨1, 0, 0⟩ ∧
     (V2.parseSceneLines (fun w => w) zeroCamera [] "" "").cam.v = ⟨0, -1, 0⟩ ∧
     (V2.parseSceneLines (fun w => w) zeroCamera [] "" "").cam.fov_x = 90 / 180 ∧
     (V2.parseSceneLines (fun w => w) zeroCamera [] "" "").cam.dir =
       cross3 (V2.parseSceneLines (fun w => w) zeroCamera [] "" "").cam.u
         (V2.parseSceneLines (fun w => w) zeroCamera [] "" "").cam.v ∧
     (V2.parseSceneLines (fun w => w) zeroCamera [] "" "").cam.dir = ⟨0, 0, -1⟩ ∧
     (V2.parseSceneLines (fun w => w) zeroCamera [] "" "").cam.position =
       zeroCamera.position) :=
  ⟨by simp,
   defaultCamera_of_no_camera_line (fun w => w) zeroCamera [] "" "" (by simp)⟩

/-- The host `gpu_meshes` vector built by `upload_meshes` has one entry
per input shape. -/
lemma uploadMeshList_length (shapes : List Shape) (h : Heap) :
    (uploadMeshList shapes h).1.length = shapes.length := by
  induction shapes generalizing h with
  | nil => rfl
  | cons sh rest ih => simp [uploadMeshList, ih]

/-- C7 (amended).  For every input shape whose index list is empty,
the flattening loop executes no iteration, the shape contributes the
value-initialized mesh entry — face count `0`, null device pointer —
to the mesh array, and its processing performs no device allocation,
no copy and no face-slot write (heap unchanged, no events); the mesh
array still has exactly one entry per input shape.  (The original
claim quantified over every zero-face shape; a shape with one or two
indices also yields zero faces, but there the loop still executes its
first iteration out of bounds — see the counterexample.) -/
theorem empty_index_shape_uploads_nothing (shapes : List Shape)
    (h hAny : Heap) (i : ℕ) (sh : Shape)
    (hi : shapes[i]? = some sh) (hemp : sh.indices = []) :
    (uploadMeshList shapes h).1[i]? = some (0, none) ∧
    uploadMeshShape sh hAny = ((0, none), hAny, []) ∧
    (uploadMeshes shapes h).1.size = shapes.length := by
  have hsh : ∀ hh : Heap, uploadMeshShape sh hh = ((0, none), hh, []) := by
    intro hh
    simp [uploadMeshShape, shapeFaceCount, faceWriteSlots, loopIdxs, hemp]
  refine ⟨?_, hsh hAny, rfl⟩
  induction shapes generalizing i h with
  | nil => simp at hi
  | cons hd rest ih =>
    cases i with
    | zero =>
      have hhd : hd = sh := by simpa using hi
      subst hhd
      simp [uploadMeshList, hsh h]
    | succ j =>
      have hj : rest[j]? = some sh := by simpa using hi
      simpa [uploadMeshList] using ih _ j hj

/-- C7 (counterexample).  A shape with a single index yields zero
faces (`1 / 3 = 0`), so it falls inside the original claim's domain,
yet its processing is not the claimed clean skip: the flattening loop
still executes iteration `i = 0`, writing host face slot `0` of the
zero-sized `faces` vector (out of bounds, `¬ 0 < 0`) and reading
`mesh.indices[1]` and `[2]` past the end of the one-entry index list,
before the zero-face `continue` skips the device allocation. -/
theorem one_index_shape_hits_loop_oob :
    (let sh1 : Shape := ⟨[⟨0, 0, 0⟩], []⟩
     shapeFaceCount sh1 = 0 ∧
     uploadMeshShape sh1 Heap.init =
       ((0, none), Heap.init, [Ev.faceWrite 0]) ∧
     uploadMeshShape sh1 Heap.init ≠ ((0, none), Heap.init, []) ∧
     0 ∈ faceWriteSlots sh1.indices.length ∧ ¬ 0 < shapeFaceCount sh1 ∧
     sh1.indices.length ≤ 0 + 2) := by decide

/-- Closed instantiation of `empty_index_shape_uploads_nothing` at a
one-shape list whose shape has an empty index list. -/
theorem empty_index_shape_uploads_nothing_witness :
    ([(⟨[], []⟩ : Shape)][0]? = some ⟨[], []⟩) ∧
    (⟨[], []⟩ : Shape).indices = [] ∧
    ((uploadMeshList [(⟨[], []⟩ : Shape)] Heap.init).1[0]? = some (0, none) ∧
     uploadMeshShape ⟨[], []⟩ Heap.init = ((0, none), Heap.init, []) ∧
     (uploadMeshes [(⟨[], []⟩ : Shape)] Heap.init).1.size =
       [(⟨[], []⟩ : Shape)].length) :=
  ⟨by decide, by decide,
   empty_index_shape_uploads_nothing [⟨[], []⟩] Heap.init Heap.init 0 ⟨[], []⟩
     (by decide) (by decide)⟩

/-- C3 (amended).  A second `upload()` on a scene whose `_uploaded`
flag is set — i.e. a Ready scene — is a complete no-op: no parsing, no
model load, no allocation, no event, no state change, nothing written
through the camera pointer.  (The original claim also covered Failed
scenes; the guard `if (_uploaded) return;` does not, see the
counterexample.) -/
theorem upload_noop_when_uploaded (norm3 : Vec3 → Vec3) (inp : V2.Inputs)
    (camPtr : Bool) (s : V2.SceneSt) (h : Heap) (hup : s.uploaded = true) :
    V2.Scene.upload norm3 inp camPtr s h = ⟨s, h, [], none⟩ := by
  simp [V2.Scene.upload, hup]

/-- C3 (counterexample).  A concrete scene left Failed by a failed
model load has `_uploaded` still false, so a second `upload()` is not a
no-op: it parses again, attempts the model load again, and overwrites
the stored error string. -/
theorem upload_failed_scene_retries :
    (let inp1 : V2.Inputs := ⟨true, [], false, "err one", [], 0⟩
     let sF := (V2.Scene.upload (fun w => w) inp1 false
       (V2.Scene.mkScene zeroCamera) Heap.init).st
     let inp2 : V2.Inputs := ⟨true, [], false, "err two", [], 0⟩
     let r2 := V2.Scene.upload (fun w => w) inp2 false sF Heap.init
     sF.ready = false ∧ sF.uploaded = false ∧
     Ev.parseEv ∈ r2.evs ∧ Ev.loadModel ∈ r2.evs ∧
     r2.st.load_error ≠ sF.load_error) := by decide

/-- Closed instantiation of `upload_noop_when_uploaded` at an
already-uploaded scene. -/
theorem upload_noop_when_uploaded_witness :
    ({ V2.Scene.mkScene zeroCamera with uploaded := true } :
      V2.SceneSt).uploaded = true ∧
    V2.Scene.upload (fun w => w) ⟨true, [], true, "", [], 0⟩ true
        { V2.Scene.mkScene zeroCamera with uploaded := true } Heap.init =
      ⟨{ V2.Scene.mkScene zeroCamera with uploaded := true }, Heap.init,
        [], none⟩ :=
  ⟨rfl,
   upload_noop_when_uploaded (fun w => w) ⟨true, [], true, "", [], 0⟩ true
     { V2.Scene.mkScene zeroCamera with uploaded := true } Heap.init rfl⟩

/-- C8.  With a non-null camera pointer, `upload()` copies the parsed
(or defaulted) camera through the pointer right after `parse_scene` and
before the model load is attempted: when the load fails, the camera was
written all the same (trace order `parse`, camera write, model load),
and the scene ends not ready. -/
theorem upload_writes_camera_before_load (norm3 : Vec3 → Vec3)
    (inp : V2.Inputs) (s : V2.SceneSt) (h : Heap)
    (hup : s.uploaded = false) (hload : inp.loadOk = false) :
    (V2.Scene.upload norm3 inp true s h).camOut =
      some (V2.parse_scene norm3 inp.fileOk inp.lines s.init_camera ""
        s.cubemap_path V2.freshSceneData.lights h).st.cam ∧
    (V2.Scene.upload norm3 inp true s h).st.ready = false ∧
    (V2.Scene.upload norm3 inp true s h).evs =
      Ev.parseEv :: (V2.parse_scene norm3 inp.fileOk inp.lines s.init_camera ""
        s.cubemap_path V2.freshSceneData.lights h).evs ++
        [Ev.camWrite, Ev.loadModel, Ev.diag] := by
  simp [V2.Scene.upload, hup, hload]

/-- Closed instantiation of `upload_writes_camera_before_load` at a
fresh scene whose model load fails. -/
theorem upload_writes_camera_before_load_witness :
    (V2.Scene.mkScene zeroCamera).uploaded = false ∧
    (⟨true, [], false, "no obj", [], 0⟩ : V2.Inputs).loadOk = false ∧
    ((V2.Scene.upload (fun w => w) ⟨true, [], false, "no obj", [], 0⟩ true
        (V2.Scene.mkScene zeroCamera) Heap.init).camOut =
      some (V2.parse_scene (fun w => w) true []
        (V2.Scene.mkScene zeroCamera).init_camera ""
        (V2.Scene.mkScene zeroCamera).cubemap_path V2.freshSceneData.lights
        Heap.init).st.cam ∧
     (V2.Scene.upload (fun w => w) ⟨true, [], false, "no obj", [], 0⟩ true
        (V2.Scene.mkScene zeroCamera) Heap.init).st.ready = false ∧
     (V2.Scene.upload (fun w => w) ⟨true, [], false, "no obj", [], 0⟩ true
        (V2.Scene.mkScene zeroCamera) Heap.init).evs =
      Ev.parseEv :: (V2.parse_scene (fun w => w) true []
        (V2.Scene.mkScene zeroCamera).init_camera ""
        (V2.Scene.mkScene zeroCamera).cubemap_path V2.freshSceneData.lights
        Heap.init).evs ++ [Ev.camWrite, Ev.loadModel, Ev.diag]) :=
  ⟨rfl, rfl,
   upload_writes_camera_before_load (fun w => w)
     ⟨true, [], false, "no obj", [], 0⟩ (V2.Scene.mkScene zeroCamera)
     Heap.init rfl rfl⟩

/-- The newer `parse_scene` never writes through a camera pointer: its
trace holds only diagnostics and the lights allocation. -/
lemma camWrite_not_mem_parse (norm3 : Vec3 → Vec3) (fileOk : Bool)
    (lines : List Line) (cam0 : Camera) (o c : String) (l0 : Buf) (h : Heap) :
    Ev.camWrite ∉ (V2.parse_scene norm3 fileOk lines cam0 o c l0 h).evs := by
  cases fileOk with
  | false => simp [V2.parse_scene]
  | true =>
    by_cases hl : (V2.parseSceneLines norm3 cam0 lines o c).lights.length = 0 <;>
      simp [V2.parse_scene, hl, List.mem_replicate]

/-- Per-shape mesh upload emits no camera write. -/
lemma camWrite_not_mem_uploadMeshShape (sh : Shape) (h : Heap) :
    Ev.camWrite ∉ (uploadMeshShape sh h).2.2 := by
  by_cases hz : shapeFaceCount sh = 0 <;> simp [uploadMeshShape, hz]

/-- The shape loop of `upload_meshes` emits no camera write. -/
lemma camWrite_not_mem_uploadMeshList (shapes : List Shape) (h : Heap) :
    Ev.camWrite ∉ (uploadMeshList shapes h).2.2 := by
  induction shapes generalizing h with
  | nil => simp [uploadMeshList]
  | cons sh rest ih =>
    simp [uploadMeshList, List.mem_append, camWrite_not_mem_uploadMeshShape, ih]

/-- The mesh uploader emits no camera write. -/
lemma camWrite_not_mem_uploadMeshes (shapes : List Shape) (h : Heap) :
    Ev.camWrite ∉ (uploadMeshes shapes h).2.2 := by
  simp [uploadMeshes, List.mem_append, camWrite_not_mem_uploadMeshList]

/-- The material uploader emits no camera write. -/
lemma camWrite_not_mem_upload_materials (nbMat : ℕ) (h : Heap) :
    Ev.camWrite ∉ (V2.upload_materials nbMat h).2.2 := by
  unfold V2.upload_materials
  split_ifs <;> simp

/-- C9.  `upload(nullptr)` is safe: with a null camera pointer nothing
is ever written through it (no camera-write event, no written value),
and the resulting scene state and device heap are identical to those of
the same call with a non-null pointer. -/
theorem upload_null_camera_safe (norm3 : Vec3 → Vec3) (inp : V2.Inputs)
    (s : V2.SceneSt) (h : Heap) :
    (V2.Scene.upload norm3 inp false s h).camOut = none ∧
    (V2.Scene.upload norm3 inp false s h).st =
      (V2.Scene.upload norm3 inp true s h).st ∧
    (V2.Scene.upload norm3 inp false s h).heap =
      (V2.Scene.upload norm3 inp true s h).heap ∧
    Ev.camWrite ∉ (V2.Scene.upload norm3 inp false s h).evs := by
  by_cases hup : s.uploaded = true
  · simp [V2.Scene.upload, hup]
  · have hupf : s.uploaded = false := by simpa using hup
    by_cases hl : inp.loadOk = true
    · simp [V2.Scene.upload, hupf, hl, List.mem_append, camWrite_not_mem_parse,
        camWrite_not_mem_uploadMeshes, camWrite_not_mem_upload_materials]
    · have hlf : inp.loadOk = false := by simpa using hl
      simp [V2.Scene.upload, hupf, hlf, List.mem_append, camWrite_not_mem_parse]

/-- C6 (amended).  For a scene file with zero `p_light` directives, the
lights buffer of the resulting `SceneData` has size `0`, its data
pointer is never written (left null/indeterminate), and `parse_scene`
performs no device allocation for it (the heap is unchanged by the
parse); the upload path never dereferences it.  However, the pointer is
not "never freed": `release_gpu` unconditionally passes `lights.data`
to `cudaFree`, so the release trace contains a free call on the lights
field even for a zero-light scene (the call frees nothing). -/
theorem zero_lights_no_alloc_but_freed (norm3 : Vec3 → Vec3)
    (inp : V2.Inputs) (camPtr : Bool) (s : V2.SceneSt) (h : Heap)
    (hup : s.uploaded = false) (hfile : inp.fileOk = true)
    (hload : inp.loadOk = true)
    (hnl : ∀ ln ∈ inp.lines, ¬ IsPlightLine ln) :
    (V2.parse_scene norm3 inp.fileOk inp.lines s.init_camera ""
      s.cubemap_path V2.freshSceneData.lights h).lightsBuf = ⟨0, none⟩ ∧
    (V2.parse_scene norm3 inp.fileOk inp.lines s.init_camera ""
      s.cubemap_path V2.freshSceneData.lights h).heap = h ∧
    ((V2.Scene.upload norm3 inp camPtr s h).st.scene_data.getD
      V2.freshSceneData).lights = ⟨0, none⟩ ∧
    Ev.freeEv "lights" none ∈
      (V2.Scene.release (V2.Scene.upload norm3 inp camPtr s h).st
        (V2.Scene.upload norm3 inp camPtr s h).heap).2.2 := by
  have hL : (V2.parseSceneLines norm3 s.init_camera inp.lines ""
      s.cubemap_path).lights = [] :=
    foldl_lights norm3 inp.lines _ hnl
  have h1 : (V2.parse_scene norm3 inp.fileOk inp.lines s.init_camera ""
      s.cubemap_path V2.freshSceneData.lights h).lightsBuf = ⟨0, none⟩ := by
    simp [V2.parse_scene, hfile, hL]
  have h2 : (V2.parse_scene norm3 inp.fileOk inp.lines s.init_camera ""
      s.cubemap_path V2.freshSceneData.lights h).heap = h := by
    simp [V2.parse_scene, hfile, hL]
  refine ⟨h1, h2, ?_, ?_⟩
  · simp [V2.Scene.upload, hup, hload, h1]
  · simp [V2.Scene.upload, hup, hload, V2.Scene.release, V2.Scene.release_gpu,
      h1, List.mem_append]

/-- C6 (counterexample).  At a concrete zero-light scene, the release
trace contains the `cudaFree` call on the lights data pointer,
refuting "its data pointer is never ... freed". -/
theorem zero_lights_pointer_is_freed :
    (let inp : V2.Inputs := ⟨true, [], true, "", [], 0⟩
     let r := V2.Scene.upload (fun w => w) inp false
       (V2.Scene.mkScene zeroCamera) Heap.init
     Ev.freeEv "lights" none ∈ (V2.Scene.release r.st r.heap).2.2) := by decide

/-- Closed instantiation of `zero_lights_no_alloc_but_freed` at a
concrete zero-light scene. -/
theorem zero_lights_no_alloc_but_freed_witness :
    (V2.Scene.mkScene zeroCamera).uploaded = false ∧
    (⟨true, [], true, "", [], 0⟩ : V2.Inputs).fileOk = true ∧
    (⟨true, [], true, "", [], 0⟩ : V2.Inputs).loadOk = true ∧
    (∀ ln ∈ (⟨true, [], true, "", [], 0⟩ : V2.Inputs).lines,
      ¬ IsPlightLine ln) ∧
    ((V2.parse_scene (fun w => w)
        (⟨true, [], true, "", [], 0⟩ : V2.Inputs).fileOk
        (⟨true, [], true, "", [], 0⟩ : V2.Inputs).lines
        (V2.Scene.mkScene zeroCamera).init_camera ""
        (V2.Scene.mkScene zeroCamera).cubemap_path V2.freshSceneData.lights
        Heap.init).lightsBuf = ⟨0, none⟩ ∧
     (V2.parse_scene (fun w => w)
        (⟨true, [], true, "", [], 0⟩ : V2.Inputs).fileOk
        (⟨true, [], true, "", [], 0⟩ : V2.Inputs).lines
        (V2.Scene.mkScene zeroCamera).init_camera ""
        (V2.Scene.mkScene zeroCamera).cubemap_path V2.freshSceneData.lights
        Heap.init).heap = Heap.init ∧
     ((V2.Scene.upload (fun w => w) ⟨true, [], true, "", [], 0⟩ false
        (V2.Scene.mkScene zeroCamera) Heap.init).st.scene_data.getD
       V2.freshSceneData).lights = ⟨0, none⟩ ∧
     Ev.freeEv "lights" none ∈
       (V2.Scene.release
         (V2.Scene.upload (fun w => w) ⟨true, [], true, "", [], 0⟩ false
           (V2.Scene.mkScene zeroCamera) Heap.init).st
         (V2.Scene.upload (fun w => w) ⟨true, [], true, "", [], 0⟩ false
           (V2.Scene.mkScene zeroCamera) Heap.init).heap).2.2) :=
  ⟨rfl, rfl, rfl, by simp,
   zero_lights_no_alloc_but_freed (fun w => w) ⟨true, [], true, "", [], 0⟩
     false (V2.Scene.mkScene zeroCamera) Heap.init rfl rfl rfl (by simp)⟩

/-- C1.  Allocation-count symmetry fails: for the minimal valid scene
(one shape with a single face, no lights, no materials, no textures,
default cubemap), `upload()` makes four device allocations (face
buffer, mesh container array, cubemap array, top-level struct) but
`release()` frees only the face buffer and the top-level struct — the
source never frees the mesh container array (allocation id `1`) nor the
cubemap array (allocation id `2`), so two allocations stay live and
the net count is `2`, not zero.  (With textures present, the texture
container array leaks as well.) -/
theorem upload_release_leaks_two_allocations :
    (let inp : V1.Inputs :=
      ⟨0, zeroCamera, "", none, 0, true,
        [⟨[⟨0, 0, 0⟩, ⟨0, 0, 0⟩, ⟨0, 0, 0⟩], [0]⟩], 0, 0⟩
     let r1 := V1.Scene.upload inp V1.Scene.mkScene Heap.init
     let r2 := V1.Scene.release r1.1 r1.2.1
     r2.2.1.live = [2, 1] ∧ r2.2.1.live.length = 2) := by decide

/-- C2.  At the failure cases the cubemap uploader does not produce a
single-texel-per-face device array: for a path whose image decodes as
8 × 9 (face size `8 / 4 = 2` inconsistent with `9 / 3 = 3`), the
fallback constant-color image is synthesized with one texel per face,
but the device cube array is still allocated and copied with extent
`2 × 2 × 6`, reading past the one-texel host buffer.  The empty-string
and hexadecimal cases do behave as claimed (extent `1`, default color
`0x05070A` resp. the parsed literal). -/
theorem cubemap_fallback_keeps_bad_extent :
    (V1.upload_cubemap "cube_cross.jpg" (some ⟨8, 9, 3⟩) 0 Heap.init).1 =
      ⟨2, 6, 4, V1.ImgSrc.constColor V1.DEFAULT_COLOR, 1⟩ ∧
    (V1.upload_cubemap "" none 0 Heap.init).1 =
      ⟨1, 6, 4, V1.ImgSrc.constColor V1.DEFAULT_COLOR, 1⟩ ∧
    (V1.upload_cubemap "0x102030" none 0 Heap.init).1 =
      ⟨1, 6, 4, V1.ImgSrc.constColor 0x102030, 1⟩ := by decide

/-- C10.  Trailing indices are not silently ignored: for a shape with
four indices the face buffer holds `4 / 3 = 1` face (and that is the
uploaded count), but the flattening loop `for (i = 0; i < 4; i += 3)`
runs for `i = 0` and `i = 3`, so it builds a second, partial face at
slot `3 / 3 = 1`, one past the end of the one-face buffer, and reads
`indices[3 + v]` up to index `5` past the end of the four-entry index
list. -/
theorem face_loop_builds_partial_face_out_of_bounds :
    (let sh : Shape := ⟨[⟨0, 0, 0⟩, ⟨0, 0, 0⟩, ⟨0, 0, 0⟩, ⟨0, 0, 0⟩], [0, 0]⟩
     shapeFaceCount sh = 1 ∧
     (uploadMeshShape sh Heap.init).1.1 = 1 ∧
     loopIdxs sh.indices.length = [0, 3] ∧
     faceWriteSlots sh.indices.length = [0, 1] ∧
     1 ∈ faceWriteSlots sh.indices.length ∧ ¬ 1 < shapeFaceCount sh ∧
     3 ∈ loopIdxs sh.indices.length ∧ sh.indices.length ≤ 3 + 2) := by decide

end PathTracer


